import Mathlib

/-!
Shallow embedding of the `signalk-openweather-provider` plugin.

The embedding covers:
* the OpenWeather response model and the parsing functions
  (`src/weather/openweather.ts`: `parseOWObservations`, `parseOWForecasts`,
  `parseOWWarnings`),
* the fetch gateway (`fetchData`, `fetchObservations`, `fetchForecasts`,
  `fetchWarnings`) with the cache-or-fetch decision logic,
* the geospatial cache `WCache` (its implementation `src/lib/cache.ts` is not
  part of the source snapshot, so it is modelled from the spec),
* both revisions of the polling scheduler found in the snapshot:
  `pollWeatherData` from `src/weather/weather-service.ts` and the revision in
  the unnamed source file `part_003` (here suffixed `P3`).

External collaborators (HTTP transport and JSON decoding, `Date`, the host
server) are modelled as parameters: the record `Env` carries the remote
service oracle (`remote`, standing for `fetch(url)` + `res.json()`), the
ISO-date formatter (`toISO`, standing for `new Date(ms).toISOString()`) and
the current clock value in milliseconds (`nowMs`, standing for `Date.now()`).
JavaScript numbers are modelled as `Rat` (for weather quantities) and `Int`
(for epoch timestamps and intervals); truthiness of a number is `≠ 0`,
truthiness of a possibly-`undefined` value is `Option.isSome`.
-/

namespace OWP

/-- A geographic position `{latitude, longitude}` (`@signalk/server-api`). -/
structure Position where
  latitude : Rat
  longitude : Rat
deriving DecidableEq

/-- Entries of the `weather` array of an OpenWeather response. -/
structure OWWeatherItem where
  id : Nat
  main : String
  description : Option String
  icon : String
deriving DecidableEq

/-- The `rain` / `snow` objects of an OpenWeather response; `h1` models the
`'1h'` key. -/
structure OWPrecip where
  h1 : Option Rat
deriving DecidableEq

/-- The `current` object of an OpenWeather one-call response
(interface `OWObservation` in `openweather.ts`).  Fields that the parser
guards with `typeof x !== 'undefined'` are modelled as `Option`. -/
structure OWObservation where
  dt : Int
  sunrise : Option Int
  sunset : Option Int
  temp : Option Rat
  feels_like : Option Rat
  pressure : Option Rat
  humidity : Option Rat
  dew_point : Option Rat
  uvi : Option Rat
  clouds : Option Rat
  visibility : Option Rat
  wind_speed : Option Rat
  wind_deg : Option Rat
  weather : List OWWeatherItem
  rain : Option OWPrecip
  snow : Option OWPrecip
deriving DecidableEq

/-- The `temp` / `feels_like` record of a daily OpenWeather forecast entry. -/
structure OWTempRec where
  day : Option Rat
  min : Option Rat
  max : Option Rat
  night : Option Rat
  eve : Option Rat
  morn : Option Rat
deriving DecidableEq

/-- In an hourly forecast entry `temp` and `feels_like` are numbers, in a
daily entry they are records; the source accesses them dynamically
(`f.temp.min`, and `f.temp as any`). -/
inductive NumOrRec where
  | num : Rat → NumOrRec
  | obj : OWTempRec → NumOrRec
deriving DecidableEq

/-- A forecast entry of an OpenWeather one-call response
(interface `OWForecast` in `openweather.ts`). -/
structure OWForecast where
  dt : Int
  sunrise : Option Int
  sunset : Option Int
  temp : NumOrRec
  feels_like : NumOrRec
  pressure : Option Rat
  humidity : Option Rat
  dew_point : Option Rat
  wind_speed : Option Rat
  wind_deg : Option Rat
  wind_gust : Option Rat
  weather : List OWWeatherItem
  clouds : Option Rat
  pop : Option Rat
  uvi : Option Rat
  rain : Option OWPrecip
  snow : Option OWPrecip
deriving DecidableEq

/-- An alert of an OpenWeather one-call response (interface `OWWarning`);
`end_` models the `end` field (a Lean keyword). -/
structure OWWarning where
  sender_name : Option String
  event : Option String
  start : Int
  end_ : Int
  description : Option String
deriving DecidableEq

/-- An OpenWeather one-call response (`OWResponse` in `openweather.ts` is a
dynamic object; the fields accessed by the plugin are modelled).  `cod` is
the application-level error code field checked by `fetchData`. -/
structure OWResponse where
  cod : Option String
  current : Option OWObservation
  hourly : Option (List OWForecast)
  daily : Option (List OWForecast)
  alerts : Option (List OWWarning)
deriving DecidableEq

/-! ## Weather API output model (`WeatherData`, `WeatherWarning`) -/

/-- The `sun` sub-object of a `WeatherData` record. -/
structure SunData where
  sunrise : Option String := none
  sunset : Option String := none
deriving DecidableEq

/-- The `outside` sub-object of a `WeatherData` record. -/
structure OutsideData where
  minTemperature : Option Rat := none
  maxTemperature : Option Rat := none
  uvIndex : Option Rat := none
  cloudCover : Option Rat := none
  horizontalVisibility : Option Rat := none
  temperature : Option NumOrRec := none
  feelsLikeTemperature : Option NumOrRec := none
  dewPointTemperature : Option Rat := none
  pressure : Option Rat := none
  absoluteHumidity : Option Rat := none
  precipitationType : Option String := none
  precipitationVolume : Option Rat := none
deriving DecidableEq

/-- The `wind` sub-object of a `WeatherData` record. -/
structure WindData where
  speedTrue : Option Rat := none
  directionTrue : Option Rat := none
  gust : Option Rat := none
deriving DecidableEq

/-- A normalized weather record; a sub-object that would be an empty
JavaScript object after parsing (and is therefore deleted by the clean-up
step) is `none`.  `water` is only ever created empty, so it is always
deleted. -/
structure WeatherData where
  date : String
  description : String
  type : String
  sun : Option SunData
  outside : Option OutsideData
  water : Option Unit
  wind : Option WindData
deriving DecidableEq

/-- A normalized weather warning (`WeatherWarning`). -/
structure WeatherWarning where
  startTime : String
  endTime : String
  details : Option String
  source : Option String
  type : Option String
deriving DecidableEq

/-- Request options of the on-demand query surface (`WeatherReqParams`). -/
structure WeatherReqParams where
  maxCount : Option Nat
deriving DecidableEq

/-- Forecast type `'daily' | 'point'`. -/
inductive WType where
  | daily
  | point
deriving DecidableEq

/-- String value of a forecast type (used for `WeatherData.type`). -/
def wtypeStr : WType → String
  | .daily => "daily"
  | .point => "point"

/-! ## Plugin configuration -/

/-- Plugin weather configuration (`WEATHER_CONFIG` in `weather-service.ts`).
`pollInterval` is `Option Int`: `none` models a missing (`undefined`) or
`NaN` value, which the init code replaces by the one-hour default. -/
structure WEATHER_CONFIG where
  apiKey : String
  enable : Bool
  pollInterval : Option Int
deriving DecidableEq

/-- The fetch interval computed by `initWeather`:
`fetchInterval = (config.pollInterval ?? 60) * 60000`, falling back to
`60 * 60000` when the product is `NaN` (both non-number cases collapse to
the same `none` branch here). -/
def initFetchInterval (config : WEATHER_CONFIG) : Int :=
  match config.pollInterval with
  | some p => p * 60000
  | none => 60 * 60000

/-! ## Geospatial cache

Modelled from the spec: the class `WCache` lives in `src/lib/cache.ts`,
which is not part of the source snapshot (only its call sites
`calcId` / `contains` / `getEntry` / `setEntry` / `maxAge` are).  The model
follows spec section 4.1: `derive` is a pure fixed-precision encoding of a
position into a cell key; `lookup` (the `contains` call site) returns a
reference only if an entry exists for the key and `now - fetchedAt < maxAge`;
`get` returns the stored payload; `put` (`setEntry`) overwrites the entry
for the key with a new timestamp.  `maxAge : Option Int` — `none` models the
`undefined` / `NaN` value the constructor may receive, for which the
freshness comparison is always false (every lookup misses, matching the
spec's zero-or-negative `maxAge` edge case). -/

/-- A spatial cell key: fixed-precision integer encoding of a position. -/
abbrev CellId := Int × Int

/-- A cache entry: payload plus fetch timestamp (spec `CacheEntry`). -/
structure CacheEntry where
  payload : OWResponse
  fetchedAt : Int
deriving DecidableEq

/-- Modelled from the spec: the cache state of `src/lib/cache.ts` —
an age-bounded store of payloads keyed by spatial cell. -/
structure WCache where
  maxAge : Option Int
  entries : List (CellId × CacheEntry)
deriving DecidableEq

/-- Association-list lookup over the cache entries. -/
def lookupCell : List (CellId × CacheEntry) → CellId → Option CacheEntry
  | [], _ => none
  | (k, e) :: rest, id => if k = id then some e else lookupCell rest id

/-- Modelled from the spec: `derive(position)` — a deterministic,
fixed-precision (one decimal place) encoding of a position into a cell key:
the floor of ten times each coordinate, computed on the numerator and
denominator of the reduced fraction. -/
def WCache.calcId (p : Position) : CellId :=
  (Int.fdiv (10 * p.latitude.num) p.latitude.den,
   Int.fdiv (10 * p.longitude.num) p.longitude.den)

/-- Modelled from the spec: `lookup(position)` (the `wcache.contains` call
site) — returns the cell key only if an entry exists for it and
`now - entry.fetchedAt < maxAge`. -/
def WCache.contains (c : WCache) (p : Position) (now : Int) : Option CellId :=
  match lookupCell c.entries (WCache.calcId p) with
  | some e =>
    match c.maxAge with
    | some m => if now - e.fetchedAt < m then some (WCache.calcId p) else none
    | none => none
  | none => none

/-- Modelled from the spec: `get(ref)` (the `wcache.getEntry` call site) —
raw payload retrieval by cell key, no freshness check. -/
def WCache.getEntry (c : WCache) (id : CellId) : Option OWResponse :=
  (lookupCell c.entries id).map CacheEntry.payload

/-- Modelled from the spec: `put` (the `wcache.setEntry` call site) —
overwrites any entry for the key with the payload stamped at the current
time. -/
def WCache.setEntry (c : WCache) (id : CellId) (payload : OWResponse)
    (now : Int) : WCache :=
  { c with entries := (id, ⟨payload, now⟩) :: c.entries.filter (fun kv => kv.1 != id) }

/-- The `OpenWeather` service object: settings plus cache. -/
structure OpenWeather where
  settings : WEATHER_CONFIG
  wcache : WCache
deriving DecidableEq

/-- The `OpenWeather` constructor: stores the settings, creates an empty
cache, and sets `wcache.maxAge = settings.pollInterval` (the raw configured
value, not converted to milliseconds). -/
def OpenWeather.init (config : WEATHER_CONFIG) : OpenWeather :=
  { settings := config, wcache := { maxAge := config.pollInterval, entries := [] } }

/-! ## External collaborators -/

/-- External collaborators of one call: the remote service oracle (`remote`
models `fetch(getUrl(position))` + `res.json()`; a transport or JSON error
is `.error`), the ISO formatter (`toISO ms` models
`new Date(ms).toISOString()`) and the clock (`nowMs` models `Date.now()`,
with `new Date()` at parse time being `toISO nowMs`). -/
structure Env where
  remote : Position → Except String OWResponse
  toISO : Int → String
  nowMs : Int

/-! ## Parsing (`parseOWObservations`, `parseOWForecasts`, `parseOWWarnings`)

The parse functions depend on the environment only through `toISO` and
`nowMs`, so they take those two directly. -/

/-- The mathematical constant as the JavaScript double `Math.PI`. -/
def mathPI : Rat := 3141592653589793 / 1000000000000000

/-- The `date` field: `x.dt ? new Date(x.dt * 1000).toISOString() :
new Date().toISOString()` (`0` is falsy). -/
def dtToDate (toISO : Int → String) (nowMs : Int) (dt : Int) : String :=
  if dt ≠ 0 then toISO (dt * 1000) else toISO nowMs

/-- The access `x.weather[0].description ?? ''`: throws a `TypeError` when
the `weather` array is empty (`x.weather[0]` is `undefined`). -/
def headDescription : List OWWeatherItem → Except String String
  | [] => .error "TypeError"
  | w :: _ => .ok (w.description.getD "")

/-- Emptiness of a `sun` object after parsing (`Object.keys(x).length === 0`). -/
def SunData.isEmpty (s : SunData) : Bool :=
  s.sunrise.isNone && s.sunset.isNone

/-- Emptiness of an `outside` object after parsing. -/
def OutsideData.isEmpty (o : OutsideData) : Bool :=
  o.minTemperature.isNone && o.maxTemperature.isNone && o.uvIndex.isNone &&
  o.cloudCover.isNone && o.horizontalVisibility.isNone && o.temperature.isNone &&
  o.feelsLikeTemperature.isNone && o.dewPointTemperature.isNone &&
  o.pressure.isNone && o.absoluteHumidity.isNone &&
  o.precipitationType.isNone && o.precipitationVolume.isNone

/-- Emptiness of a `wind` object after parsing. -/
def WindData.isEmpty (w : WindData) : Bool :=
  w.speedTrue.isNone && w.directionTrue.isNone && w.gust.isNone

/-- Dynamic field access on `temp` / `feels_like`: on a number the record
field is `undefined`. -/
def NumOrRec.field (t : NumOrRec) (f : OWTempRec → Option Rat) : Option Rat :=
  match t with
  | .num _ => none
  | .obj r => f r

/-- The body of `parseOWObservations`: builds at most one observation
record from the `current` object of the response.  The precipitation
branches keep the source's rain-over-snow priority; the trailing clean-up
deletes empty sub-objects (`water` is always empty and always deleted). -/
def parseOWObsCurrent (toISO : Int → String) (nowMs : Int) (d : OWResponse) :
    Except String (List WeatherData) :=
  match d.current with
  | none => .ok []
  | some current =>
      match headDescription current.weather with
      | .error e => .error e
      | .ok desc =>
        let precip : Option (String × Rat) :=
          match current.rain.bind OWPrecip.h1 with
          | some v => some ("rain", v)
          | none => (current.snow.bind OWPrecip.h1).map (fun v => ("snow", v))
        let sun : SunData :=
          { sunrise := current.sunrise.map (fun t => toISO (t * 1000)),
            sunset := current.sunset.map (fun t => toISO (t * 1000)) }
        let outside : OutsideData :=
          { uvIndex := current.uvi,
            cloudCover := current.clouds.map (fun v => v / 100),
            horizontalVisibility := current.visibility,
            temperature := current.temp.map NumOrRec.num,
            feelsLikeTemperature := current.feels_like.map NumOrRec.num,
            dewPointTemperature := current.dew_point,
            pressure := current.pressure.map (fun v => v * 100),
            absoluteHumidity := current.humidity.map (fun v => v / 100),
            precipitationType := precip.map Prod.fst,
            precipitationVolume := precip.map Prod.snd }
        let wind : WindData :=
          { speedTrue := current.wind_speed,
            directionTrue := current.wind_deg.map (fun v => mathPI / 180 * v) }
        .ok [{ date := dtToDate toISO nowMs current.dt,
               description := desc,
               type := "observation",
               sun := if sun.isEmpty then none else some sun,
               outside := if outside.isEmpty then none else some outside,
               water := none,
               wind := if wind.isEmpty then none else some wind }]

/-- `parseOWObservations`: the `if (owData && owData.current)` guard —
`undefined` input (possible only on the cached path) and a missing
`current` field both yield the empty list; otherwise the record builder
above runs. -/
def parseOWObservations (toISO : Int → String) (nowMs : Int)
    (owData : Option OWResponse) : Except String (List WeatherData) :=
  match owData with
  | none => .ok []
  | some d => parseOWObsCurrent toISO nowMs d

/-- One iteration of the `forecasts.forEach` body of `parseOWForecasts`.
The `outside` clean-up faithfully keeps the source's guard on
`forecast.wind` (`if (forecast.wind && Object.keys(forecast.outside)...)`,
checked after `wind` itself was cleaned): an empty `outside` survives when
`wind` was deleted. -/
def parseOWForecastEntry (toISO : Int → String) (nowMs : Int) (period : WType)
    (f : OWForecast) : Except String WeatherData :=
  match headDescription f.weather with
  | .error e => .error e
  | .ok desc =>
    let sunOpt : Option SunData :=
      match period with
      | .daily =>
        let sun : SunData :=
          { sunrise := f.sunrise.map (fun t => toISO (t * 1000)),
            sunset := f.sunset.map (fun t => toISO (t * 1000)) }
        if sun.isEmpty then none else some sun
      | .point => none
    let precip : Option (String × Rat) :=
      match f.rain.bind OWPrecip.h1 with
      | some v => some ("rain", v)
      | none => (f.snow.bind OWPrecip.h1).map (fun v => ("snow", v))
    let outside : OutsideData :=
      { minTemperature := match period with
          | .daily => f.temp.field OWTempRec.min
          | .point => none,
        maxTemperature := match period with
          | .daily => f.temp.field OWTempRec.max
          | .point => none,
        feelsLikeTemperature := match period with
          | .daily => (f.feels_like.field OWTempRec.day).map NumOrRec.num
          | .point => some f.feels_like,
        temperature := match period with
          | .daily => none
          | .point => some f.temp,
        dewPointTemperature := f.dew_point,
        uvIndex := f.uvi,
        cloudCover := f.clouds.map (fun v => v / 100),
        pressure := f.pressure.map (fun v => v * 100),
        absoluteHumidity := f.humidity.map (fun v => v / 100),
        precipitationType := precip.map Prod.fst,
        precipitationVolume := precip.map Prod.snd }
    let wind : WindData :=
      { speedTrue := f.wind_speed,
        directionTrue := f.wind_deg.map (fun v => mathPI / 180 * v),
        gust := f.wind_gust }
    let windOpt : Option WindData := if wind.isEmpty then none else some wind
    .ok { date := dtToDate toISO nowMs f.dt,
          description := desc,
          type := wtypeStr period,
          sun := sunOpt,
          outside := if windOpt.isSome && outside.isEmpty then none else some outside,
          water := none,
          wind := windOpt }

/-- `parseOWForecasts`: maps the entry builder over `owData[owPeriod]`
(`hourly` for `point`, `daily` for `daily`); a missing array yields the
empty list, a thrown entry aborts the whole parse (the partially filled
local array is discarded). -/
def parseOWForecasts (toISO : Int → String) (nowMs : Int)
    (owData : Option OWResponse) (period : WType) :
    Except String (List WeatherData) :=
  match owData with
  | none => .ok []
  | some d =>
    match (match period with | .point => d.hourly | .daily => d.daily) with
    | none => .ok []
    | some forecasts => forecasts.mapM (parseOWForecastEntry toISO nowMs period)

/-- One alert of `parseOWWarnings`.  The `endTime` expression is translated
verbatim from the source: `alert.end ? new Date(alert.start *
1000).toISOString() : ''` — the guard tests `alert.end` but the value is
computed from `alert.start`. -/
def parseOWWarning (toISO : Int → String) (alert : OWWarning) : WeatherWarning :=
  { startTime := if alert.start ≠ 0 then toISO (alert.start * 1000) else "",
    endTime := if alert.end_ ≠ 0 then toISO (alert.start * 1000) else "",
    details := alert.description,
    source := alert.sender_name,
    type := alert.event }

/-- `parseOWWarnings`: maps the alert builder over `owData.alerts`. -/
def parseOWWarnings (toISO : Int → String) (owData : Option OWResponse) :
    List WeatherWarning :=
  match owData with
  | none => []
  | some d =>
    match d.alerts with
    | none => []
    | some alerts => alerts.map (parseOWWarning toISO)

/-! ## Fetch gateway -/

deriving instance DecidableEq for Except

/-- Result of one call of a fetch method: the value (or the normalized
error), the cache state after the call (the cache is mutated in place in
the source, so it is updated even when a later parse step throws), and
whether the remote service was contacted during the call. -/
structure FetchOut (α : Type) where
  result : Except String α
  cache : WCache
  remoteCalled : Bool
deriving DecidableEq

/-- `OpenWeather.fetchData`: contacts the remote service, rejects a
response carrying a `cod` error field, and on success stores the payload in
the cache (`setEntry`) before returning it; every failure is normalized to
one generic error by the surrounding `catch`. -/
def OpenWeather.fetchData (env : Env) (ow : OpenWeather) (pos : Position) :
    Except String OWResponse × WCache :=
  match env.remote pos with
  | .error _ => (.error "Error fetching weather data from provider!", ow.wcache)
  | .ok owData =>
    match owData.cod with
    | some _ => (.error "Error fetching weather data from provider!", ow.wcache)
    | none => (.ok owData, ow.wcache.setEntry (WCache.calcId pos) owData env.nowMs)

/-- `options?.maxCount ? obs.slice(0, options.maxCount) : obs` — the
truncation is applied only when `maxCount` is truthy (present and nonzero). -/
def applyMaxCount (options : Option WeatherReqParams) (l : List WeatherData) :
    List WeatherData :=
  match options with
  | none => l
  | some o =>
    match o.maxCount with
    | none => l
    | some n => if n ≠ 0 then l.take n else l

/-- The remote branch of `fetchObservations` (`bypassCache || !entryId`):
fetch, then parse, then truncate; parse failures become the generic error
but keep the already-updated cache. -/
def OpenWeather.fetchObsRemote (env : Env) (ow : OpenWeather) (pos : Position)
    (options : Option WeatherReqParams) : FetchOut (List WeatherData) :=
  match OpenWeather.fetchData env ow pos with
  | (.error _, c') => ⟨.error "Error fetching / parsing weather data!", c', true⟩
  | (.ok owData, c') =>
    match parseOWObservations env.toISO env.nowMs (some owData) with
    | .error _ => ⟨.error "Error fetching / parsing weather data!", c', true⟩
    | .ok obs => ⟨.ok (applyMaxCount options obs), c', true⟩

/-- `OpenWeather.fetchObservations`: consult the freshness-aware cache
lookup; serve from the cache unless `bypassCache` is set or the lookup
misses, in which case fall through to the remote service. -/
def OpenWeather.fetchObservations (env : Env) (ow : OpenWeather)
    (pos : Position) (options : Option WeatherReqParams) (bypassCache : Bool) :
    FetchOut (List WeatherData) :=
  match bypassCache, ow.wcache.contains pos env.nowMs with
  | true, _ => OpenWeather.fetchObsRemote env ow pos options
  | false, none => OpenWeather.fetchObsRemote env ow pos options
  | false, some id =>
    match parseOWObservations env.toISO env.nowMs (ow.wcache.getEntry id) with
    | .error _ => ⟨.error "Error fetching / parsing weather data!", ow.wcache, false⟩
    | .ok obs => ⟨.ok (applyMaxCount options obs), ow.wcache, false⟩

/-- The remote branch of `fetchForecasts`. -/
def OpenWeather.fetchForeRemote (env : Env) (ow : OpenWeather) (pos : Position)
    (type : WType) (options : Option WeatherReqParams) :
    FetchOut (List WeatherData) :=
  match OpenWeather.fetchData env ow pos with
  | (.error _, c') =>
    ⟨.error "Error fetching / parsing weather data from provider!", c', true⟩
  | (.ok owData, c') =>
    match parseOWForecasts env.toISO env.nowMs (some owData) type with
    | .error _ =>
      ⟨.error "Error fetching / parsing weather data from provider!", c', true⟩
    | .ok f => ⟨.ok (applyMaxCount options f), c', true⟩

/-- `OpenWeather.fetchForecasts`: same cache-or-fetch decision as
`fetchObservations`. -/
def OpenWeather.fetchForecasts (env : Env) (ow : OpenWeather) (pos : Position)
    (type : WType) (options : Option WeatherReqParams) (bypassCache : Bool) :
    FetchOut (List WeatherData) :=
  match bypassCache, ow.wcache.contains pos env.nowMs with
  | true, _ => OpenWeather.fetchForeRemote env ow pos type options
  | false, none => OpenWeather.fetchForeRemote env ow pos type options
  | false, some id =>
    match parseOWForecasts env.toISO env.nowMs (ow.wcache.getEntry id) type with
    | .error _ =>
      ⟨.error "Error fetching / parsing weather data from provider!", ow.wcache, false⟩
    | .ok f => ⟨.ok (applyMaxCount options f), ow.wcache, false⟩

/-- The remote branch of `fetchWarnings`. -/
def OpenWeather.fetchWarnRemote (env : Env) (ow : OpenWeather)
    (pos : Position) : FetchOut (List WeatherWarning) :=
  match OpenWeather.fetchData env ow pos with
  | (.error _, c') => ⟨.error "Error fetching / parsing weather data!", c', true⟩
  | (.ok owData, c') => ⟨.ok (parseOWWarnings env.toISO (some owData)), c', true⟩

/-- `OpenWeather.fetchWarnings`: same cache-or-fetch decision as the other
two fetch methods. -/
def OpenWeather.fetchWarnings (env : Env) (ow : OpenWeather) (pos : Position)
    (bypassCache : Bool) : FetchOut (List WeatherWarning) :=
  match bypassCache, ow.wcache.contains pos env.nowMs with
  | true, _ => OpenWeather.fetchWarnRemote env ow pos
  | false, none => OpenWeather.fetchWarnRemote env ow pos
  | false, some id =>
    ⟨.ok (parseOWWarnings env.toISO (ow.wcache.getEntry id)), ow.wcache, false⟩

/-! ## Polling scheduler, revision of `src/weather/weather-service.ts`

The module-level mutable state of the scheduler is gathered in
`SchedState`.  Timer handles are modelled by occupancy: `liveTimers` counts
the live `setInterval` handles (the source overwrites the `timer` variable
without clearing the previous handle, so several intervals can be live at
once), `varLive` says whether the handle currently stored in the `timer`
variable is still live (`clearInterval(timer)` only cancels that one), and
`retryTimerArmed` tracks the single `retryTimer` `setTimeout` variable
(shared by the no-position retry and the fetch retry).  One invocation of
`pollWeatherData` is a pure step: the position read, the clock and the
outcome of the (bypassing) fetch are inputs; the emitted delta, the armed
timers and the reported plugin error are outputs. -/

/-- The scheduler's mutable module-level state. -/
structure SchedState where
  lastWake : Int
  lastFetch : Int
  retryCount : Nat
  noPosCount : Nat
  liveTimers : Nat
  varLive : Bool
  retryTimerArmed : Bool
deriving DecidableEq

/-- Observable outcome of one scheduler step. -/
structure StepOut where
  state : SchedState
  fetched : Bool
  scheduledRetry : Bool
  armedInterval : Bool
  emitted : Bool
  pluginError : Option String
deriving DecidableEq

/-- `const wakeInterval = 60000`. -/
def wakeInterval : Int := 60000

/-- `retry.maxCount = 3`. -/
def retryMaxCount : Nat := 3

/-- `noPosRetry.maxCount = 12`. -/
def noPosMaxCount : Nat := 12

/-- The position-present prologue: `noPosRetry.count = 0;
if (retryTimer) clearTimeout(retryTimer)`. -/
def clearNoPos (s : SchedState) : SchedState :=
  { s with noPosCount := 0, retryTimerArmed := false }

/-- One invocation of `pollWeatherData` (revision of
`src/weather/weather-service.ts`, lines 170-258).  `fetchOutcome` is the
outcome of `weatherService.fetchObservations(pos.value, undefined, true)`
when that call is reached. -/
def pollWeatherData (s : SchedState) (pos : Option Position) (now : Int)
    (fetchOutcome : Except String Unit) (fetchInterval : Int) : StepOut :=
  match pos with
  | none =>
    if s.noPosCount ≥ noPosMaxCount then
      ⟨s, false, false, false, false, none⟩
    else
      ⟨{ s with noPosCount := s.noPosCount + 1, retryTimerArmed := true },
        false, true, false, false, none⟩
  | some _ =>
    if s.lastFetch ≠ 0 ∧ now - s.lastFetch < fetchInterval then
      ⟨clearNoPos s, false, false, false, false, none⟩
    else if s.retryCount < retryMaxCount then
      match fetchOutcome with
      | .ok _ =>
        ⟨{ clearNoPos s with
             retryCount := 0, lastFetch := now, lastWake := now,
             liveTimers := s.liveTimers + 1, varLive := true },
          true, false, true, true, none⟩
      | .error _ =>
        ⟨{ clearNoPos s with retryCount := s.retryCount + 1, retryTimerArmed := true },
          true, true, false, false, none⟩
    else
      ⟨{ clearNoPos s with retryCount := 0 }, false, false, false, false, none⟩

/-- The watchdog's `clearInterval(timer)`: cancels the handle currently
referenced by the `timer` variable (leaked older handles stay live). -/
def clearWakeTimer (s : SchedState) : SchedState :=
  { s with liveTimers := s.liveTimers - (if s.varLive then 1 else 0),
           varLive := false }

/-- The `setInterval` callback armed on a successful fetch (lines 225-240):
runs the watchdog first — if less than `50000` ms elapsed since `lastWake`
the referenced interval is cleared and a fatal plugin error is reported —
then unconditionally updates `lastWake` and calls `pollWeatherData` again
(also after a watchdog trip). -/
def wakeTimerTick (s : SchedState) (pos : Option Position) (now : Int)
    (fetchOutcome : Except String Unit) (fetchInterval : Int) : StepOut :=
  if now - s.lastWake ≥ 50000 then
    pollWeatherData { s with lastWake := now } pos now fetchOutcome fetchInterval
  else
    { pollWeatherData { clearWakeTimer s with lastWake := now } pos now
        fetchOutcome fetchInterval
      with pluginError := some "Weather watch timer error!" }

/-! ## Polling scheduler, revision in the unnamed file `part_003`

This revision arms the single wake interval once at `initWeather` (guarded
by `if (!timer)`), runs the watchdog at the top of `pollWeatherData`
(stopping everything via `stopWeather` when the elapsed time is more than
10 s short of the wake interval), and folds both failure kinds into one
`errorCount` handled by `handleError`. -/

/-- The `part_003` scheduler's mutable module-level state. -/
structure SchedStateP3 where
  lastWake : Int
  lastFetch : Int
  errorCount : Nat
  timerArmed : Bool
deriving DecidableEq

/-- Observable outcome of one `part_003` scheduler step. -/
structure StepOutP3 where
  state : SchedStateP3
  fetched : Bool
  emitted : Bool
  pluginError : Option String
deriving DecidableEq

/-- `const errorCountMax = 5`. -/
def errorCountMax : Nat := 5

/-- `stopWeather` (`part_003`): clears the interval timer, nulls the
variable, and resets the timestamps. -/
def stopWeatherP3 (s : SchedStateP3) (fetchInterval : Int) : SchedStateP3 :=
  { s with timerArmed := false, lastFetch := fetchInterval - 1, lastWake := 0 }

/-- `handleError` (`part_003`): bumps `errorCount` and stops everything
once it reaches `errorCountMax`. -/
def handleErrorP3 (s : SchedStateP3) (fetchInterval : Int) : SchedStateP3 :=
  if s.errorCount + 1 ≥ errorCountMax then
    stopWeatherP3 { s with errorCount := s.errorCount + 1 } fetchInterval
  else
    { s with errorCount := s.errorCount + 1 }

/-- One invocation of `pollWeatherData` from `part_003`: the watchdog check
runs first (`lastWake > 0` and less than `wakeInterval - 10000` ms elapsed
trips it: `stopWeather`, fatal plugin error, return — no position read, no
fetch); otherwise `lastWake` is updated and the cycle proceeds. -/
def pollWeatherDataP3 (s : SchedStateP3) (pos : Option Position) (now : Int)
    (fetchOutcome : Except String Unit) (fetchInterval : Int) : StepOutP3 :=
  if s.lastWake > 0 ∧ now - s.lastWake < wakeInterval - 10000 then
    ⟨stopWeatherP3 s fetchInterval, false, false,
      some "Weather timer stopped by watchdog!"⟩
  else
    match pos with
    | none =>
      ⟨handleErrorP3 { s with lastWake := now } fetchInterval, false, false, none⟩
    | some _ =>
      if s.lastFetch ≠ 0 ∧ now - s.lastFetch < fetchInterval then
        ⟨{ s with lastWake := now }, false, false, none⟩
      else if s.errorCount < errorCountMax then
        match fetchOutcome with
        | .ok _ =>
          ⟨{ s with errorCount := 0, lastFetch := now, lastWake := now },
            true, true, none⟩
        | .error msg =>
          ⟨handleErrorP3 { s with lastWake := now } fetchInterval, true, false,
            some msg⟩
      else
        ⟨{ s with lastWake := now }, false, false, none⟩

/-- The timer-arming step of `initWeather` in `part_003` (lines 140-148):
when polling is enabled, the single periodic wake timer is armed only if it
is not already armed (`if (config.enable) { if (!timer) { ... timer =
setInterval(...) ... } }`).  Returns the new state and whether a new
interval was created. -/
def initWeatherTimerP3 (enable : Bool) (s : SchedStateP3) :
    SchedStateP3 × Bool :=
  if enable then
    if s.timerArmed then (s, false)
    else ({ s with timerArmed := true }, true)
  else (s, false)

/-! ## Concrete instances used to evaluate the definitions -/

/-- A sample position; its cell key is `(100, 200)`. -/
def wPos : Position := { latitude := 10, longitude := 20 }

/-- An empty payload (no `cod` error field). -/
def wPayloadA : OWResponse :=
  { cod := none, current := none, hourly := none, daily := none, alerts := none }

/-- A payload distinct from `wPayloadA`. -/
def wPayloadB : OWResponse :=
  { cod := none, current := none, hourly := none, daily := none, alerts := some [] }

/-- A sample `weather` array entry. -/
def wWeatherItem : OWWeatherItem :=
  { id := 800, main := "Clear", description := some "clear sky", icon := "01d" }

/-- A minimal `current` object. -/
def wCurrent : OWObservation :=
  { dt := 7, sunrise := none, sunset := none, temp := none, feels_like := none,
    pressure := none, humidity := none, dew_point := none, uvi := none,
    clouds := none, visibility := none, wind_speed := none, wind_deg := none,
    weather := [wWeatherItem], rain := none, snow := none }

/-- A payload carrying a `current` object. -/
def wPayloadC : OWResponse :=
  { cod := none, current := some wCurrent, hourly := none, daily := none,
    alerts := none }

/-- The observation record parsed from `wPayloadC` (with the decimal-string
ISO formatter below). -/
def wObsC : WeatherData :=
  { date := "7000", description := "clear sky", type := "observation",
    sun := none, outside := none, water := none, wind := none }

/-- Environment whose remote service returns `wPayloadA`. -/
def wEnvA : Env :=
  { remote := fun _ => .ok wPayloadA, toISO := fun n => toString n, nowMs := 50 }

/-- Environment whose remote service returns `wPayloadB`. -/
def wEnvB : Env :=
  { remote := fun _ => .ok wPayloadB, toISO := fun n => toString n, nowMs := 60 }

/-- Environment whose remote service returns `wPayloadC`. -/
def wEnvC : Env :=
  { remote := fun _ => .ok wPayloadC, toISO := fun n => toString n, nowMs := 70 }

/-- A sample configuration. -/
def wConfig : WEATHER_CONFIG :=
  { apiKey := "k", enable := true, pollInterval := some 100 }

/-- Service object holding a fresh cache entry for `wPos` stamped at `0`
with `maxAge = 100`. -/
def wOWFresh : OpenWeather :=
  { settings := wConfig,
    wcache := { maxAge := some 100, entries := [((100, 200), ⟨wPayloadA, 0⟩)] } }

/-- Service object with an empty cache. -/
def wOWEmpty : OpenWeather :=
  { settings := wConfig, wcache := { maxAge := some 100, entries := [] } }

/-- The configuration with the default 60-minute poll interval. -/
def cfg60 : WEATHER_CONFIG :=
  { apiKey := "key", enable := true, pollInterval := some 60 }

/-- A sample alert with nonzero `start` and `end`. -/
def wAlert : OWWarning :=
  { sender_name := some "met-office", event := some "gale", start := 5,
    end_ := 9, description := some "strong wind" }

/-- The scheduler's pristine state. -/
def schedZero : SchedState :=
  { lastWake := 0, lastFetch := 0, retryCount := 0, noPosCount := 0,
    liveTimers := 0, varLive := false, retryTimerArmed := false }

/-- A scheduler state with one live, referenced wake timer, last woken at
`1000000`. -/
def cexTrip : SchedState :=
  { schedZero with lastWake := 1000000, liveTimers := 1, varLive := true }

/-- A scheduler state with three no-position retries so far. -/
def c5s : SchedState := { schedZero with noPosCount := 3 }

/-- A scheduler state with an exhausted fetch-retry counter. -/
def c6s : SchedState := { schedZero with retryCount := 3 }

/-- A `part_003` scheduler state last woken at `2000000`. -/
def cexP3 : SchedStateP3 :=
  { lastWake := 2000000, lastFetch := 0, errorCount := 0, timerArmed := true }

/-- A pristine `part_003` scheduler state with no timer armed. -/
def c7p3 : SchedStateP3 :=
  { lastWake := 0, lastFetch := 0, errorCount := 0, timerArmed := false }

/-! ## Helper lemmas -/

/-- A successful freshness-aware lookup returns the derived cell key, and a
raw `getEntry` on that key succeeds. -/
theorem contains_spec {c : WCache} {p : Position} {now : Int} {id : CellId}
    (h : c.contains p now = some id) :
    id = WCache.calcId p ∧
      ∃ e, lookupCell c.entries (WCache.calcId p) = some e ∧
        c.getEntry id = some e.payload := by
  unfold WCache.contains at h
  split at h
  · rename_i e hl
    split at h
    · rename_i m hm
      split at h
      · injection h with h'
        subst h'
        exact ⟨rfl, e, hl, by unfold WCache.getEntry; rw [hl]; rfl⟩
      · cases h
    · cases h
  · cases h

/-- After `setEntry`, `getEntry` on the same key returns the new payload. -/
theorem getEntry_setEntry (c : WCache) (id : CellId) (payload : OWResponse)
    (now : Int) : (c.setEntry id payload now).getEntry id = some payload := by
  unfold WCache.setEntry WCache.getEntry lookupCell
  simp

/-- Truncation never lengthens a list. -/
theorem applyMaxCount_length_le (options : Option WeatherReqParams)
    (l : List WeatherData) : (applyMaxCount options l).length ≤ l.length := by
  unfold applyMaxCount
  split
  · exact Nat.le.refl
  · split
    · exact Nat.le.refl
    · split
      · rw [List.length_take]; exact min_le_right _ _
      · exact Nat.le.refl

/-- A successful run of the observation record builder yields at most one
record. -/
theorem parseOWObsCurrent_length_le (toISO : Int → String) (nowMs : Int)
    (d : OWResponse) (l : List WeatherData)
    (h : parseOWObsCurrent toISO nowMs d = .ok l) : l.length ≤ 1 := by
  unfold parseOWObsCurrent at h
  split at h
  · cases h; exact Nat.zero_le 1
  · split at h
    · cases h
    · cases h; exact Nat.le.refl

/-- A successful observation parse yields at most one record. -/
theorem parseOWObservations_length_le (toISO : Int → String) (nowMs : Int)
    (x : Option OWResponse) (l : List WeatherData)
    (h : parseOWObservations toISO nowMs x = .ok l) : l.length ≤ 1 := by
  unfold parseOWObservations at h
  split at h
  · cases h; exact Nat.zero_le 1
  · exact parseOWObsCurrent_length_le toISO nowMs _ l h

/-- The result of the remote observation branch with options is the result
without options, truncated. -/
theorem fetchObsRemote_result_map (env : Env) (ow : OpenWeather)
    (pos : Position) (options : Option WeatherReqParams) :
    (OpenWeather.fetchObsRemote env ow pos options).result =
      (OpenWeather.fetchObsRemote env ow pos none).result.map
        (applyMaxCount options) := by
  unfold OpenWeather.fetchObsRemote
  split
  · rfl
  · split <;> rfl

/-- The result of the remote forecast branch with options is the result
without options, truncated. -/
theorem fetchForeRemote_result_map (env : Env) (ow : OpenWeather)
    (pos : Position) (t : WType) (options : Option WeatherReqParams) :
    (OpenWeather.fetchForeRemote env ow pos t options).result =
      (OpenWeather.fetchForeRemote env ow pos t none).result.map
        (applyMaxCount options) := by
  unfold OpenWeather.fetchForeRemote
  split
  · rfl
  · split <;> rfl

/-! ## Claim theorems -/

/-- C10: for every alert in a provider response, the warning record
produced by the warnings parser (feeding `fetchWarnings`) derives its
`endTime` from the alert's `start` timestamp, not its `end` timestamp:
whenever `alert.start` and `alert.end` are both nonzero, the returned
warning's `startTime` and `endTime` are the same ISO string, computed from
`alert.start`; and `parseOWWarnings` builds its records through exactly
this per-alert builder. -/
theorem c10_warning_end_from_start (toISO : Int → String) (a : OWWarning)
    (hs : a.start ≠ 0) (he : a.end_ ≠ 0) :
    (parseOWWarning toISO a).startTime = toISO (a.start * 1000)
  ∧ (parseOWWarning toISO a).endTime = (parseOWWarning toISO a).startTime
  ∧ ∀ (d : OWResponse) (alerts : List OWWarning), d.alerts = some alerts →
      parseOWWarnings toISO (some d) = alerts.map (parseOWWarning toISO) := by
  refine ⟨?_, ?_, ?_⟩
  · show (if a.start ≠ 0 then toISO (a.start * 1000) else "") = toISO (a.start * 1000)
    rw [if_pos hs]
  · show (if a.end_ ≠ 0 then toISO (a.start * 1000) else "") =
      (if a.start ≠ 0 then toISO (a.start * 1000) else "")
    rw [if_pos hs, if_pos he]
  · intro d alerts hd
    show (match d.alerts with
          | none => []
          | some alerts => List.map (parseOWWarning toISO) alerts) =
        List.map (parseOWWarning toISO) alerts
    rw [hd]

/-- Witness for C10 at the concrete alert `wAlert`. -/
theorem c10_witness :
    wAlert.start ≠ 0 ∧ wAlert.end_ ≠ 0 ∧
    (parseOWWarning (fun n => toString n) wAlert).endTime =
      (parseOWWarning (fun n => toString n) wAlert).startTime :=
  ⟨by decide, by decide,
    (c10_warning_end_from_start (fun n => toString n) wAlert (by decide)
      (by decide)).2.1⟩

/-- C3 counterexample: with the default 60-minute poll interval the
scheduler's fetch interval is `3600000` (milliseconds) while the cache's
`maxAge` is set to the raw value `60`; the two are not equal values. -/
theorem c3_counterexample :
    initFetchInterval cfg60 = 3600000
  ∧ (OpenWeather.init cfg60).wcache.maxAge = some 60
  ∧ (OpenWeather.init cfg60).wcache.maxAge ≠ some (initFetchInterval cfg60) := by
  refine ⟨rfl, rfl, ?_⟩
  decide

/-- C3 (amended): after initialisation the scheduler's fetch interval and
the cache's `maxAge` are both derived from the same configured
`pollInterval`, but with different units: the fetch interval is
`pollInterval * 60000` (milliseconds) while `wcache.maxAge` is assigned the
raw `pollInterval` value, so `fetchInterval = 60000 * maxAge`. -/
theorem c3_amended (config : WEATHER_CONFIG) (p : Int)
    (h : config.pollInterval = some p) :
    initFetchInterval config = 60000 * p
  ∧ (OpenWeather.init config).wcache.maxAge = some p := by
  constructor
  · unfold initFetchInterval
    rw [h]
    exact Int.mul_comm p 60000
  · exact h

/-- Witness for C3's amended theorem at the default configuration. -/
theorem c3_witness :
    cfg60.pollInterval = some 60 ∧ initFetchInterval cfg60 = 60000 * 60 ∧
    (OpenWeather.init cfg60).wcache.maxAge = some 60 :=
  ⟨rfl, (c3_amended cfg60 60 rfl).1, (c3_amended cfg60 60 rfl).2⟩

/-- C8: at the on-demand query surface, `maxCount = 0` is falsy, so the
truncation branch is skipped and the full list is returned; for any
`maxCount ≥ 1` the result is the first `maxCount` entries; and both
`fetchObservations` and `fetchForecasts` produce their result by applying
exactly this truncation to the untruncated (no-options) result. -/
theorem c8_maxcount_zero_untruncated :
    (∀ l : List WeatherData, applyMaxCount (some ⟨some 0⟩) l = l)
  ∧ (∀ (n : Nat) (l : List WeatherData), 1 ≤ n →
      applyMaxCount (some ⟨some n⟩) l = l.take n)
  ∧ (∀ (env : Env) (ow : OpenWeather) (pos : Position)
      (options : Option WeatherReqParams) (b : Bool),
      (OpenWeather.fetchObservations env ow pos options b).result =
        (OpenWeather.fetchObservations env ow pos none b).result.map
          (applyMaxCount options))
  ∧ (∀ (env : Env) (ow : OpenWeather) (pos : Position) (t : WType)
      (options : Option WeatherReqParams) (b : Bool),
      (OpenWeather.fetchForecasts env ow pos t options b).result =
        (OpenWeather.fetchForecasts env ow pos t none b).result.map
          (applyMaxCount options)) := by
  refine ⟨fun l => rfl, ?_, ?_, ?_⟩
  · intro n l h
    show (if n ≠ 0 then List.take n l else l) = List.take n l
    rw [if_pos (by omega : n ≠ 0)]
  · intro env ow pos options b
    unfold OpenWeather.fetchObservations
    split
    · exact fetchObsRemote_result_map env ow pos options
    · exact fetchObsRemote_result_map env ow pos options
    · split <;> rfl
  · intro env ow pos t options b
    unfold OpenWeather.fetchForecasts
    split
    · exact fetchForeRemote_result_map env ow pos t options
    · exact fetchForeRemote_result_map env ow pos t options
    · split <;> rfl

/-- Witness for C8 with a two-element list and `maxCount = 2`. -/
theorem c8_witness :
    (1 : Nat) ≤ 2 ∧
    applyMaxCount (some ⟨some 2⟩) [wObsC, wObsC, wObsC] = [wObsC, wObsC] := by
  refine ⟨by decide, ?_⟩
  rw [(c8_maxcount_zero_untruncated).2.1 2 [wObsC, wObsC, wObsC] (by decide)]
  rfl

/-- C5: in the no-position retry loop (`noPosRetry.maxCount = 12`):
a wake with no position and retry count below the maximum increments the
counter and schedules exactly one retry; once the counter has reached the
maximum, a no-position wake changes nothing and schedules nothing; and a
wake with a position resets the counter to zero and cancels any pending
retry timer (any retry timer armed in the result was scheduled by this very
step). -/
theorem c5_no_position_retry_loop (s : SchedState) (now : Int)
    (fout : Except String Unit) (fI : Int) :
    noPosMaxCount = 12
  ∧ (s.noPosCount < noPosMaxCount →
      pollWeatherData s none now fout fI =
        ⟨{ s with noPosCount := s.noPosCount + 1, retryTimerArmed := true },
          false, true, false, false, none⟩)
  ∧ (s.noPosCount ≥ noPosMaxCount →
      pollWeatherData s none now fout fI = ⟨s, false, false, false, false, none⟩)
  ∧ (∀ p : Position,
      (pollWeatherData s (some p) now fout fI).state.noPosCount = 0
    ∧ ((pollWeatherData s (some p) now fout fI).state.retryTimerArmed =
        (pollWeatherData s (some p) now fout fI).scheduledRetry)) := by
  refine ⟨rfl, ?_, ?_, ?_⟩
  · intro h
    simp only [pollWeatherData]
    rw [if_neg (by omega : ¬ s.noPosCount ≥ noPosMaxCount)]
  · intro h
    simp only [pollWeatherData]
    rw [if_pos h]
  · intro p
    constructor <;>
    · simp only [pollWeatherData]
      split
      · rfl
      · split
        · cases fout <;> rfl
        · rfl

/-- Witness for C5 at a state with three no-position retries so far. -/
theorem c5_witness :
    c5s.noPosCount < noPosMaxCount ∧
    pollWeatherData c5s none 0 (.ok ()) 3600000 =
      ⟨{ c5s with noPosCount := 4, retryTimerArmed := true },
        false, true, false, false, none⟩ :=
  ⟨by decide, (c5_no_position_retry_loop c5s 0 (.ok ()) 3600000).2.1 (by decide)⟩

/-- C6: in the fetch-retry loop (`retry.maxCount = 3`): once the error
counter has reached the maximum and the fetch interval has lapsed, the
counter is reset to zero and neither a fetch nor a retry is scheduled
(dormant until the next periodic wake); below the maximum, a failed fetch
increments the counter by one (monotonically non-decreasing) and schedules
one retry, and a successful fetch resets it to zero. -/
theorem c6_fetch_retry_loop (s : SchedState) (p : Position) (now : Int)
    (fI : Int) (fout : Except String Unit) (e : String) :
    retryMaxCount = 3
  ∧ (¬(s.lastFetch ≠ 0 ∧ now - s.lastFetch < fI) → s.retryCount ≥ retryMaxCount →
      pollWeatherData s (some p) now fout fI =
        ⟨{ s with noPosCount := 0, retryTimerArmed := false, retryCount := 0 },
          false, false, false, false, none⟩)
  ∧ (¬(s.lastFetch ≠ 0 ∧ now - s.lastFetch < fI) → s.retryCount < retryMaxCount →
      pollWeatherData s (some p) now (.error e) fI =
        ⟨{ s with
             noPosCount := 0, retryTimerArmed := true,
             retryCount := s.retryCount + 1 },
          true, true, false, false, none⟩)
  ∧ (¬(s.lastFetch ≠ 0 ∧ now - s.lastFetch < fI) → s.retryCount < retryMaxCount →
      (pollWeatherData s (some p) now (.ok ()) fI).state.retryCount = 0) := by
  refine ⟨rfl, ?_, ?_, ?_⟩
  · intro hgate hmax
    simp only [pollWeatherData]
    rw [if_neg hgate, if_neg (by omega : ¬ s.retryCount < retryMaxCount)]
    rfl
  · intro hgate hlt
    simp only [pollWeatherData]
    rw [if_neg hgate, if_pos hlt]
    rfl
  · intro hgate hlt
    simp only [pollWeatherData]
    rw [if_neg hgate, if_pos hlt]

/-- Witness for C6 at a state with an exhausted retry counter. -/
theorem c6_witness :
    ¬(c6s.lastFetch ≠ 0 ∧ (1000 : Int) - c6s.lastFetch < 3600000) ∧
    c6s.retryCount ≥ retryMaxCount ∧
    pollWeatherData c6s (some wPos) 1000 (.error "boom") 3600000 =
      ⟨{ c6s with noPosCount := 0, retryTimerArmed := false, retryCount := 0 },
        false, false, false, false, none⟩ :=
  ⟨by decide, by decide,
    (c6_fetch_retry_loop c6s wPos 1000 3600000 (.error "boom") "boom").2.1
      (by decide) (by decide)⟩

/-- C7 counterexample: two successive successful scheduler-driven fetches
(the second one via the wake-timer callback after the fetch interval
lapsed) leave two live periodic wake timers — `timer = setInterval(...)` is
executed unconditionally on every success, so "at most one periodic wake
timer is active" fails. -/
theorem c7_counterexample :
    (pollWeatherData schedZero (some wPos) 1000 (.ok ()) 3600000).state.liveTimers = 1
  ∧ (pollWeatherData schedZero (some wPos) 1000 (.ok ()) 3600000).armedInterval = true
  ∧ (wakeTimerTick
       (pollWeatherData schedZero (some wPos) 1000 (.ok ()) 3600000).state
       (some wPos) 5000000 (.ok ()) 3600000).armedInterval = true
  ∧ (wakeTimerTick
       (pollWeatherData schedZero (some wPos) 1000 (.ok ()) 3600000).state
       (some wPos) 5000000 (.ok ()) 3600000).state.liveTimers = 2 := by
  decide

/-- C7 (amended): on every successful scheduler-driven fetch the
`weather-service.ts` scheduler resets the fetch-retry counter, records the
last-fetch and last-wake times, emits a weather delta, and unconditionally
arms a new periodic wake timer (one more live timer than before, even if
one is already armed); the `part_003` revision instead arms the single
timer once at initialisation, guarded by `if (!timer)` — an already-armed
timer is left untouched and no new interval is created, an unarmed one is
armed exactly once — and its successful-fetch path does not arm any timer
(the timer state is unchanged). -/
theorem c7_amended (s : SchedState) (p : Position) (now : Int) (fI : Int)
    (hgate : ¬(s.lastFetch ≠ 0 ∧ now - s.lastFetch < fI))
    (hretry : s.retryCount < retryMaxCount) :
    (pollWeatherData s (some p) now (.ok ()) fI =
      ⟨{ s with
           noPosCount := 0, retryTimerArmed := false, retryCount := 0,
           lastFetch := now, lastWake := now, liveTimers := s.liveTimers + 1,
           varLive := true },
        true, false, true, true, none⟩)
  ∧ (∀ s2 : SchedStateP3, s2.timerArmed = true →
      initWeatherTimerP3 true s2 = (s2, false))
  ∧ (∀ s2 : SchedStateP3, s2.timerArmed = false →
      initWeatherTimerP3 true s2 = ({ s2 with timerArmed := true }, true))
  ∧ (∀ (s2 : SchedStateP3) (q : Position) (now2 fI2 : Int),
      ¬(s2.lastWake > 0 ∧ now2 - s2.lastWake < wakeInterval - 10000) →
      ¬(s2.lastFetch ≠ 0 ∧ now2 - s2.lastFetch < fI2) →
      s2.errorCount < errorCountMax →
      (pollWeatherDataP3 s2 (some q) now2 (.ok ()) fI2).state.timerArmed =
        s2.timerArmed) := by
  refine ⟨?_, ?_, ?_, ?_⟩
  · simp only [pollWeatherData]
    rw [if_neg hgate, if_pos hretry]
    rfl
  · intro s2 h2
    simp [initWeatherTimerP3, h2]
  · intro s2 h2
    simp [initWeatherTimerP3, h2]
  · intro s2 q now2 fI2 hwd hg herr
    simp only [pollWeatherDataP3]
    rw [if_neg hwd, if_neg hg, if_pos herr]

/-- Witness for C7's amended theorem: a pristine `weather-service.ts`
state for the success branch, plus an armed and an unarmed `part_003`
state for the guarded initialisation arming, plus a successful `part_003`
wake preserving the timer state. -/
theorem c7_witness :
    (¬(schedZero.lastFetch ≠ 0 ∧ (1000 : Int) - schedZero.lastFetch < 3600000) ∧
     schedZero.retryCount < retryMaxCount ∧
     pollWeatherData schedZero (some wPos) 1000 (.ok ()) 3600000 =
       ⟨{ schedZero with
            noPosCount := 0, retryTimerArmed := false,
            retryCount := 0, lastFetch := 1000, lastWake := 1000,
            liveTimers := 1, varLive := true },
         true, false, true, true, none⟩)
  ∧ (cexP3.timerArmed = true ∧ initWeatherTimerP3 true cexP3 = (cexP3, false))
  ∧ (c7p3.timerArmed = false ∧
     initWeatherTimerP3 true c7p3 = ({ c7p3 with timerArmed := true }, true))
  ∧ (pollWeatherDataP3 cexP3 (some wPos) 4000000 (.ok ()) 3600000).state.timerArmed =
      cexP3.timerArmed := by
  have h := c7_amended schedZero wPos 1000 3600000 (by decide) (by decide)
  exact ⟨⟨by decide, by decide, h.1⟩,
    ⟨rfl, h.2.1 cexP3 rfl⟩,
    ⟨rfl, h.2.2.1 c7p3 rfl⟩,
    h.2.2.2 cexP3 wPos 4000000 3600000 (by decide) (by decide) (by decide)⟩

/-- C4 counterexample: a wake-timer tick with only 10 ms elapsed since the
last wake trips the watchdog (the fatal plugin error is reported and the
referenced interval is cleared), yet the same tick still invokes
`pollWeatherData`, which performs a fetch and arms a fresh periodic wake
timer — so a fetch and a live wake timer do occur after the trip, without
any restart. -/
theorem c4_counterexample :
    (wakeTimerTick cexTrip (some wPos) 1000010 (.ok ()) 3600000).pluginError =
      some "Weather watch timer error!"
  ∧ (wakeTimerTick cexTrip (some wPos) 1000010 (.ok ()) 3600000).fetched = true
  ∧ (wakeTimerTick cexTrip (some wPos) 1000010 (.ok ()) 3600000).armedInterval = true
  ∧ (wakeTimerTick cexTrip (some wPos) 1000010 (.ok ()) 3600000).state.liveTimers = 1 := by
  decide

/-- C4 (amended): when the wake timer of the `weather-service.ts` scheduler
fires with less than 50 s elapsed since the last wake, the interval timer
referenced by the `timer` variable is cleared and the fatal plugin error is
reported, but the callback still runs `pollWeatherData` once more with its
usual behaviour (it may fetch and re-arm a timer, and a pending one-shot
retry timer is not cancelled by the trip); in the `part_003` revision the
watchdog trip does halt cleanly: `stopWeather` cancels the periodic timer
and the tick ends with no fetch and no emission. -/
theorem c4_amended (s : SchedState) (pos : Option Position) (now : Int)
    (fout : Except String Unit) (fI : Int)
    (htrip : now - s.lastWake < 50000) :
    wakeTimerTick s pos now fout fI =
      { pollWeatherData { clearWakeTimer s with lastWake := now } pos now fout fI
        with pluginError := some "Weather watch timer error!" }
  ∧ ∀ (s2 : SchedStateP3) (pos2 : Option Position) (now2 : Int)
      (fout2 : Except String Unit) (fI2 : Int),
      s2.lastWake > 0 → now2 - s2.lastWake < 50000 →
      pollWeatherDataP3 s2 pos2 now2 fout2 fI2 =
        ⟨stopWeatherP3 s2 fI2, false, false,
          some "Weather timer stopped by watchdog!"⟩ := by
  constructor
  · unfold wakeTimerTick
    rw [if_neg (by omega : ¬ now - s.lastWake ≥ 50000)]
  · intro s2 pos2 now2 fout2 fI2 h1 h2
    unfold pollWeatherDataP3
    rw [if_pos ⟨h1, by simp only [wakeInterval]; omega⟩]

/-- The remote observation branch always reports a remote call. -/
theorem fetchObsRemote_remoteCalled (env : Env) (ow : OpenWeather)
    (pos : Position) (options : Option WeatherReqParams) :
    (OpenWeather.fetchObsRemote env ow pos options).remoteCalled = true := by
  unfold OpenWeather.fetchObsRemote
  split
  · rfl
  · split <;> rfl

/-- The remote forecast branch always reports a remote call. -/
theorem fetchForeRemote_remoteCalled (env : Env) (ow : OpenWeather)
    (pos : Position) (t : WType) (options : Option WeatherReqParams) :
    (OpenWeather.fetchForeRemote env ow pos t options).remoteCalled = true := by
  unfold OpenWeather.fetchForeRemote
  split
  · rfl
  · split <;> rfl

/-- The remote warnings branch always reports a remote call. -/
theorem fetchWarnRemote_remoteCalled (env : Env) (ow : OpenWeather)
    (pos : Position) :
    (OpenWeather.fetchWarnRemote env ow pos).remoteCalled = true := by
  unfold OpenWeather.fetchWarnRemote
  split <;> rfl

/-- Under a successful remote call (no `cod` error field), the remote
observation branch returns the cache updated with the fetched payload,
whether or not the subsequent parse succeeds. -/
theorem fetchObsRemote_cache_ok (env : Env) (ow : OpenWeather) (pos : Position)
    (options : Option WeatherReqParams) (d : OWResponse)
    (hrem : env.remote pos = .ok d) (hcod : d.cod = none) :
    (OpenWeather.fetchObsRemote env ow pos options).cache =
      ow.wcache.setEntry (WCache.calcId pos) d env.nowMs := by
  simp only [OpenWeather.fetchObsRemote, OpenWeather.fetchData, hrem, hcod]
  split <;> rfl

/-- A successful remote observation branch yields at most one record. -/
theorem fetchObsRemote_ok_length (env : Env) (ow : OpenWeather)
    (pos : Position) (options : Option WeatherReqParams)
    (l : List WeatherData)
    (h : (OpenWeather.fetchObsRemote env ow pos options).result = .ok l) :
    l.length ≤ 1 := by
  unfold OpenWeather.fetchObsRemote at h
  split at h
  · cases h
  · split at h
    · cases h
    · rename_i hp
      cases h
      exact le_trans (applyMaxCount_length_le options _)
        (parseOWObservations_length_le _ _ _ _ hp)

/-- C1: with `bypassCache` false: a fresh cache hit (`wcache.contains`
returning an entry reference) is served by parsing the cached payload — the
cache state is unchanged, the remote-called flag is false, and the outcome
does not depend on the remote oracle at all; a lookup miss falls through to
the remote branch, which on a successful remote call returns a cache
holding the payload (`setEntry`) together with the parsed payload. -/
theorem c1_cache_or_fetch (env : Env) (ow : OpenWeather) (pos : Position)
    (options : Option WeatherReqParams) :
    (∀ id, ow.wcache.contains pos env.nowMs = some id →
      (∃ payload, ow.wcache.getEntry id = some payload ∧
        OpenWeather.fetchObservations env ow pos options false =
          (match parseOWObservations env.toISO env.nowMs (some payload) with
           | .error _ =>
             ⟨.error "Error fetching / parsing weather data!", ow.wcache, false⟩
           | .ok obs => ⟨.ok (applyMaxCount options obs), ow.wcache, false⟩)) ∧
      ∀ env' : Env, env'.toISO = env.toISO → env'.nowMs = env.nowMs →
        OpenWeather.fetchObservations env' ow pos options false =
          OpenWeather.fetchObservations env ow pos options false)
  ∧ (ow.wcache.contains pos env.nowMs = none →
      OpenWeather.fetchObservations env ow pos options false =
        OpenWeather.fetchObsRemote env ow pos options ∧
      ∀ d, env.remote pos = .ok d → d.cod = none →
        OpenWeather.fetchObsRemote env ow pos options =
          ⟨(match parseOWObservations env.toISO env.nowMs (some d) with
            | .error _ => .error "Error fetching / parsing weather data!"
            | .ok obs => .ok (applyMaxCount options obs)),
            ow.wcache.setEntry (WCache.calcId pos) d env.nowMs, true⟩) := by
  constructor
  · intro id h
    obtain ⟨hid, e, hl, hget⟩ := contains_spec h
    constructor
    · refine ⟨e.payload, hget, ?_⟩
      simp only [OpenWeather.fetchObservations, h]
      rw [hget]
    · intro env' ht hn
      simp only [OpenWeather.fetchObservations, ht, hn, h]
  · intro h
    constructor
    · simp only [OpenWeather.fetchObservations, h]
    · intro d hrem hcod
      simp only [OpenWeather.fetchObsRemote, OpenWeather.fetchData, hrem, hcod]
      cases hp : parseOWObservations env.toISO env.nowMs (some d) <;> rfl

/-- Witness for C1: the fresh cache entry at `wPos` is served from the
cache. -/
theorem c1_witness :
    wOWFresh.wcache.contains wPos wEnvA.nowMs = some (100, 200) ∧
    ∃ payload, wOWFresh.wcache.getEntry (100, 200) = some payload ∧
      OpenWeather.fetchObservations wEnvA wOWFresh wPos none false =
        (match parseOWObservations wEnvA.toISO wEnvA.nowMs (some payload) with
         | .error _ =>
           ⟨.error "Error fetching / parsing weather data!", wOWFresh.wcache, false⟩
         | .ok obs => ⟨.ok (applyMaxCount none obs), wOWFresh.wcache, false⟩) :=
  ⟨by decide, ((c1_cache_or_fetch wEnvA wOWFresh wPos none).1 (100, 200)
    (by decide)).1⟩

/-- C2: with `bypassCache` true every fetch method takes the remote branch
unconditionally (regardless of cache freshness); every successful remote
call stores the fetched payload in the cache (`fetchData` returns the
`setEntry`-updated cache with or without bypass); hence two successive
bypassed calls whose remote service returns distinct payloads leave the
cache holding the second payload. -/
theorem c2_bypass_always_refreshes :
    (∀ (env : Env) (ow : OpenWeather) (pos : Position)
       (options : Option WeatherReqParams),
      OpenWeather.fetchObservations env ow pos options true =
        OpenWeather.fetchObsRemote env ow pos options
      ∧ (OpenWeather.fetchObsRemote env ow pos options).remoteCalled = true)
  ∧ (∀ (env : Env) (ow : OpenWeather) (pos : Position) (t : WType)
       (options : Option WeatherReqParams),
      OpenWeather.fetchForecasts env ow pos t options true =
        OpenWeather.fetchForeRemote env ow pos t options
      ∧ (OpenWeather.fetchForeRemote env ow pos t options).remoteCalled = true)
  ∧ (∀ (env : Env) (ow : OpenWeather) (pos : Position),
      OpenWeather.fetchWarnings env ow pos true =
        OpenWeather.fetchWarnRemote env ow pos
      ∧ (OpenWeather.fetchWarnRemote env ow pos).remoteCalled = true)
  ∧ (∀ (env : Env) (ow : OpenWeather) (pos : Position) (d : OWResponse),
      env.remote pos = .ok d → d.cod = none →
      OpenWeather.fetchData env ow pos =
        (.ok d, ow.wcache.setEntry (WCache.calcId pos) d env.nowMs))
  ∧ (∀ (env1 env2 : Env) (ow : OpenWeather) (pos : Position)
       (A B : OWResponse),
      env1.remote pos = .ok A → A.cod = none →
      env2.remote pos = .ok B → B.cod = none → A ≠ B →
      ((OpenWeather.fetchObservations env2
          { ow with
            wcache := (OpenWeather.fetchObservations env1 ow pos none true).cache }
          pos none true).cache.getEntry (WCache.calcId pos) = some B
       ∧ (OpenWeather.fetchObservations env2
           { ow with
             wcache := (OpenWeather.fetchObservations env1 ow pos none true).cache }
           pos none true).cache.getEntry (WCache.calcId pos) ≠ some A)) := by
  refine ⟨?_, ?_, ?_, ?_, ?_⟩
  · intro env ow pos options
    exact ⟨rfl, fetchObsRemote_remoteCalled env ow pos options⟩
  · intro env ow pos t options
    exact ⟨rfl, fetchForeRemote_remoteCalled env ow pos t options⟩
  · intro env ow pos
    exact ⟨rfl, fetchWarnRemote_remoteCalled env ow pos⟩
  · intro env ow pos d hrem hcod
    simp only [OpenWeather.fetchData, hrem, hcod]
  · intro env1 env2 ow pos A B h1 hA h2 hB hAB
    have hc2 : (OpenWeather.fetchObservations env2
        { ow with
          wcache := (OpenWeather.fetchObservations env1 ow pos none true).cache }
        pos none true).cache =
        ({ ow with
           wcache := (OpenWeather.fetchObservations env1 ow pos none
             true).cache } : OpenWeather).wcache.setEntry
          (WCache.calcId pos) B env2.nowMs :=
      fetchObsRemote_cache_ok env2 _ pos none B h2 hB
    rw [hc2, getEntry_setEntry]
    refine ⟨rfl, fun hEq => hAB ?_⟩
    injection hEq with h'
    exact h'.symm

/-- Witness for C2: two successive bypassed calls, the first returning
`wPayloadA` and the second the distinct `wPayloadB`, leave the cache
holding `wPayloadB`. -/
theorem c2_witness :
    wEnvA.remote wPos = .ok wPayloadA ∧ wPayloadA.cod = none ∧
    wEnvB.remote wPos = .ok wPayloadB ∧ wPayloadB.cod = none ∧
    wPayloadA ≠ wPayloadB ∧
    (OpenWeather.fetchObservations wEnvB
        { wOWEmpty with
          wcache := (OpenWeather.fetchObservations wEnvA wOWEmpty wPos none
            true).cache }
        wPos none true).cache.getEntry (WCache.calcId wPos) = some wPayloadB := by
  refine ⟨rfl, rfl, rfl, rfl, by decide, ?_⟩
  exact ((c2_bypass_always_refreshes).2.2.2.2 wEnvA wEnvB wOWEmpty wPos
    wPayloadA wPayloadB rfl rfl rfl rfl (by decide)).1

/-- C9: the observations parser yields exactly one record when the response
has a `current` field and none otherwise, and every successful
`fetchObservations` call (any cache state, options and bypass flag) returns
a list of length at most one. -/
theorem c9_at_most_one_observation :
    (∀ (toISO : Int → String) (nowMs : Int) (d : OWResponse)
       (l : List WeatherData),
      parseOWObservations toISO nowMs (some d) = .ok l →
      (d.current.isSome → l.length = 1) ∧ (d.current.isNone → l = []))
  ∧ (∀ (env : Env) (ow : OpenWeather) (pos : Position)
       (options : Option WeatherReqParams) (b : Bool) (l : List WeatherData),
      (OpenWeather.fetchObservations env ow pos options b).result = .ok l →
      l.length ≤ 1) := by
  constructor
  · intro toISO nowMs d l h
    replace h : parseOWObsCurrent toISO nowMs d = .ok l := h
    unfold parseOWObsCurrent at h
    split at h
    · rename_i hc
      cases h
      refine ⟨fun hs => ?_, fun _ => rfl⟩
      rw [hc] at hs
      simp at hs
    · rename_i current hc
      split at h
      · cases h
      · cases h
        refine ⟨fun _ => rfl, fun hn => ?_⟩
        rw [hc] at hn
        simp at hn
  · intro env ow pos options b l h
    unfold OpenWeather.fetchObservations at h
    split at h
    · exact fetchObsRemote_ok_length env ow pos options l h
    · exact fetchObsRemote_ok_length env ow pos options l h
    · split at h
      · cases h
      · rename_i hp
        cases h
        exact le_trans (applyMaxCount_length_le options _)
          (parseOWObservations_length_le _ _ _ _ hp)

/-- Witness for C9: a response with a `current` field yields exactly the
one-record list. -/
theorem c9_witness :
    (OpenWeather.fetchObservations wEnvC wOWEmpty wPos none true).result =
      .ok [wObsC] ∧ [wObsC].length ≤ 1 :=
  ⟨by rfl,
    (c9_at_most_one_observation).2 wEnvC wOWEmpty wPos none true [wObsC]
      (by rfl)⟩

/-- Witness for C4's amended theorem at concrete tripped states of both
scheduler revisions. -/
theorem c4_witness :
    ((1000010 : Int) - cexTrip.lastWake < 50000) ∧
    cexP3.lastWake > 0 ∧ ((2000001 : Int) - cexP3.lastWake < 50000) ∧
    pollWeatherDataP3 cexP3 (some wPos) 2000001 (.ok ()) 3600000 =
      ⟨stopWeatherP3 cexP3 3600000, false, false,
        some "Weather timer stopped by watchdog!"⟩ :=
  ⟨by decide, by decide, by decide,
    (c4_amended cexTrip (some wPos) 1000010 (.ok ()) 3600000 (by decide)).2
      cexP3 (some wPos) 2000001 (.ok ()) 3600000 (by decide) (by decide)⟩

end OWP
